import Mathlib

/-!
Shallow embedding of `hass_nibe/__init__.py` (the nibe uplink integration
core): the per-system polling/diff/dispatch engine (`NibeSystem.update_notifications`,
`NibeSystem.update_statuses`, `NibeSystem.load` / `NibeSystem.unload`) and the
ordered resource-lifecycle manager built on `AsyncExitStack`
(`async_setup_entry`, `async_setup_systems`, `async_unload_entry`), plus the
`skip_reload` counter shared by `async_update_listener` and `access_data_write`.
-/

namespace Nibe

/-- A remote notification record, as returned by `uplink.get_notifications`:
a stable `notificationId` plus free-text fields (`info.title`,
`info.description`).  In the Python source each record is a JSON dict; list
membership tests (`k not in self.notice`) therefore compare whole records. -/
structure NotificationRecord where
  notificationId : Nat
  title : String
  description : String
deriving DecidableEq, Repr

/-- A remote fetch failure (network/auth/remote error raised by the uplink
client). -/
structure FetchError where
  msg : String
deriving DecidableEq, Repr

/-- A request made to the host notification surface
(`persistent_notification.async_create` / `async_dismiss`). -/
inductive NoticeAction where
  | create (message : String) (title : String) (key : String)
  | dismiss (key : String)
deriving DecidableEq, Repr

/-- The persistent-notification key used by `update_notifications`:
`"nibe:" + notificationId` (source: `"nibe:{}".format(x["notificationId"])`,
written here with explicit concatenation). -/
def notifKey (x : NotificationRecord) : String :=
  "nibe:" ++ toString x.notificationId

/-- The added/removed diff computed inline by `update_notifications`
(lines 369-370):
`added = [k for k in notice if k not in self.notice]` and
`removed = [k for k in self.notice if k not in notice]`.
Membership is Python list membership on dicts, i.e. whole-record equality. -/
def notifDiff (oldNotice newNotice : List NotificationRecord) :
    List NotificationRecord × List NotificationRecord :=
  (newNotice.filter (fun k => !(oldNotice.contains k)),
   oldNotice.filter (fun k => !(newNotice.contains k)))

/-- `NibeSystem.update_notifications`: the remote fetch is the first
statement; when it raises, the exception propagates and nothing below it
runs (modelled by the `Except` bind).  On success the cached `self.notice`
is replaced by the fetched snapshot, then one `async_create` per added
record and one `async_dismiss` per removed record are requested. -/
def update_notifications (oldNotice : List NotificationRecord)
    (fetchResult : Except FetchError (List NotificationRecord)) :
    Except FetchError (List NotificationRecord × List NoticeAction) := do
  let notice ← fetchResult
  let added := (notifDiff oldNotice notice).1
  let removed := (notifDiff oldNotice notice).2
  pure (notice,
    added.map (fun x => NoticeAction.create x.description x.title (notifKey x))
      ++ removed.map (fun x => NoticeAction.dismiss (notifKey x)))

/-- One notification poll as observed at the controller: when the fetch
raises, the exception leaves `self.notice` untouched and no host action was
requested before the raise (the fetch is the first statement). -/
def poll_notifications (oldNotice : List NotificationRecord)
    (fetchResult : Except FetchError (List NotificationRecord)) :
    List NotificationRecord × List NoticeAction :=
  match update_notifications oldNotice fetchResult with
  | Except.error _ => (oldNotice, [])
  | Except.ok r => r

/-- A live parameter reading inside a status-icon group.  The Python code
keeps the whole parameter dict as the payload; the fields beyond
`parameterId` are abstracted into `payload`. -/
structure Parameter where
  parameterId : Nat
  payload : String
deriving DecidableEq, Repr

/-- One status-icon group from `uplink.get_status`: a category `title` and
zero or more parameters. -/
structure StatusIcon where
  title : String
  parameters : List Parameter
deriving DecidableEq, Repr

/-- Python-dict insertion on an association list: assignment
`d[k] = v` replaces the value at an existing key in place, else appends. -/
def dictInsert (d : List (Nat × Parameter)) (k : Nat) (v : Parameter) :
    List (Nat × Parameter) :=
  if d.any (fun p => p.1 == k) then
    d.map (fun p => if p.1 == k then (k, v) else p)
  else
    d ++ [(k, v)]

/-- Python-dict lookup on the association list. -/
def dictGet (d : List (Nat × Parameter)) (k : Nat) : Option Parameter :=
  (d.find? (fun p => p.1 == k)).map Prod.snd

/-- The inner-loop statement `parameters[parameter["parameterId"]] = parameter`. -/
def insParam (d : List (Nat × Parameter)) (p : Parameter) : List (Nat × Parameter) :=
  dictInsert d p.parameterId p

/-- The loop body of `update_statuses` (lines 349-354): starting from the
fresh locals `parameters = {}` and `statuses = set()`, each status icon adds
its title to the set and upserts each of its parameters keyed by
`parameterId`. -/
def statusFold (status_icons : List StatusIcon) :
    List (Nat × Parameter) × Finset String :=
  status_icons.foldl
    (fun acc icon =>
      (icon.parameters.foldl insParam acc.1, insert icon.title acc.2))
    ([], ∅)

/-- An event published on the dispatcher bus by `update_statuses`. -/
inductive BusEvent where
  | parametersUpdated (systemId : Nat) (parameters : List (Nat × Parameter))
  | statusesUpdated (systemId : Nat) (statuses : Finset String)
deriving DecidableEq

/-- `NibeSystem.update_statuses` on a successful fetch: rebuild `parameters`
and `statuses` from the fetched icons, replace `self.statuses`, then
dispatch `SIGNAL_PARAMETERS_UPDATED (system_id, parameters)` followed by
`SIGNAL_STATUSES_UPDATED (system_id, statuses)`, unconditionally. -/
def update_statuses (system_id : Nat) (_oldStatuses : Finset String)
    (status_icons : List StatusIcon) : Finset String × List BusEvent :=
  let r := statusFold status_icons
  (r.2,
   [BusEvent.parametersUpdated system_id r.1,
    BusEvent.statusesUpdated system_id r.2])

/-- How an exit registered on the `AsyncExitStack` behaves when it is
invoked while an exception is already in flight.  A `plain` exit — a
`stack.callback` entry (always invoked regardless of exception state) or a
library `__aexit__` such as `UplinkSession` / `Uplink` (which closes its
resource whatever `exc_type` it receives) — performs its teardown in every
case.  A `generator` exit comes from an `@asynccontextmanager` whose
cleanup sits after its `yield` with no try/finally (`async_setup_systems`,
`async_forward_platforms`): invoked with an exception in flight, its
`__aexit__` is `gen.athrow`, which raises at the yield point, so the
post-yield cleanup is skipped and the exception simply re-raised. -/
inductive ExitKind where
  | plain
  | generator
deriving DecidableEq, Repr

/-- One exit callback registered on the `AsyncExitStack`: the resource it
releases, how it reacts to an exception in flight, and whether its teardown
(when it does run) completes without raising.  A list of entries with
head = most recently registered models the stack. -/
structure ExitEntry (α : Type) where
  res : α
  kind : ExitKind
  ok : Bool
deriving DecidableEq, Repr

/-- `AsyncExitStack` unwinding (`aclose` / `__aexit__`): exit callbacks run
last-registered first; `exc` says whether an exception is already in flight
when the unwind starts.  A `generator` exit reached with an exception in
flight skips its post-yield teardown (`gen.athrow` raises at the yield);
every other exit performs its teardown, and a teardown that raises makes
(or keeps) an exception in flight — none of the exits registered by this
integration suppresses one.  Returns the trace of teardowns actually
performed (in execution order) and whether the close finished without a
pending exception to re-raise. -/
def acloseStack {α : Type} : List (ExitEntry α) → Bool → List α × Bool
  | [], exc => ([], !exc)
  | t :: rest, exc =>
    if t.kind = ExitKind.generator ∧ exc = true then
      acloseStack rest exc
    else
      let r := acloseStack rest (exc || !t.ok)
      (t.res :: r.1, r.2)

/-- `async_unload_entry`: clears the `NibeData` references and awaits
`data.stack.aclose()` (no exception in flight at that point); it returns
`True` only when `aclose` does not re-raise.  `AsyncExitStack` pops each
callback before invoking it, so after `aclose` the stack object is empty
even when the close re-raised.  Result: (performed-teardown trace, stack
afterwards, reported success). -/
def async_unload_entry (stack : List (ExitEntry String)) :
    List String × List (ExitEntry String) × Bool :=
  let r := acloseStack stack false
  (r.1, [], r.2)

/-- Two consecutive `async_unload_entry` calls on the same `NibeData` (the
second sees the stack left behind by the first). -/
def unloadTwice (stack : List (ExitEntry String)) :
    (List String × Bool) × (List String × Bool) :=
  let r1 := async_unload_entry stack
  let r2 := async_unload_entry r1.2.1
  ((r1.1, r1.2.2), (r2.1, r2.2.2))

/-- The resources `async_setup_entry` acquires on its `AsyncExitStack`, in
source order: the update-listener registration (`stack.callback`), the
`UplinkSession`, the `Uplink` client, the system-controller set
(`async_setup_systems`), and the forwarded host platforms
(`async_forward_platforms`). -/
inductive Resource where
  | updateListener
  | session
  | uplink
  | systems
  | platforms
deriving DecidableEq, Repr

/-- Acquisition order of `async_setup_entry` (lines 249-265). -/
def acquisitionOrder : List Resource :=
  [Resource.updateListener, Resource.session, Resource.uplink,
   Resource.systems, Resource.platforms]

/-- The exit behaviour of each chain resource: the listener registration is
a `stack.callback`, the session and the client are library `__aexit__`s
(all `plain`), while the controller set and the platform exposure are
`@asynccontextmanager`s whose cleanup sits after their `yield`
(`generator`). -/
def resourceKind : Resource → ExitKind
  | Resource.updateListener => ExitKind.plain
  | Resource.session => ExitKind.plain
  | Resource.uplink => ExitKind.plain
  | Resource.systems => ExitKind.generator
  | Resource.platforms => ExitKind.generator

/-- `async_setup_entry`'s `async with data.stack` block: each step either
enters its context (pushing its exit onto the stack, head = most recent) or
raises.  On a raise the `async with` exits with the exception in flight and
the stack unwinds via `acloseStack acquired true`; the error payload
carries the failing resource and the teardowns actually performed, in
execution order.  On success `pop_all()` hands the stack off; the payload
is the handed-off stack. -/
def runSetup : List (Resource × Bool) → List (ExitEntry Resource) →
    Except (Resource × List Resource) (List (ExitEntry Resource))
  | [], acquired => Except.ok acquired
  | (r, ok) :: rest, acquired =>
    if ok then
      runSetup rest ({ res := r, kind := resourceKind r, ok := true } :: acquired)
    else
      Except.error (r, (acloseStack acquired true).1)

/-- Outcome assignment where the first `k` acquisition steps succeed and
the next one (when any) raises. -/
def setupOutcome (k : Nat) : List (Resource × Bool) :=
  (acquisitionOrder.take k).map (fun r => (r, true)) ++
    (acquisitionOrder.drop k).map (fun r => (r, false))

/-- The two periodic tasks started by `NibeSystem.load` (lines 339-344), in
start order: notifications polling first, then statuses polling. -/
inductive PeriodicTask where
  | notificationsTask
  | statusesTask
deriving DecidableEq, Repr

/-- `self._unsub` after a successful `NibeSystem.load`: handles appended in
start order. -/
def load_unsub : List PeriodicTask :=
  [PeriodicTask.notificationsTask, PeriodicTask.statusesTask]

/-- `NibeSystem.unload`: `for unsub in reversed(self._unsub): unsub()`,
then `self._unsub = []`.  Returns (cancellation order, new `_unsub`). -/
def system_unload (unsub : List PeriodicTask) :
    List PeriodicTask × List PeriodicTask :=
  (unsub.reverse, [])

/-- Observable outcome of entering the `async_setup_systems` context. -/
structure SystemsEnterResult where
  loaded : List Nat
  unloadCalls : List Nat
  raised : Bool
deriving DecidableEq, Repr

/-- `async_setup_systems.__aenter__` (the generator body up to `yield`,
lines 178-179): `loads` lists each configured system id with whether its
`load()` succeeds.  `await asyncio.gather(...)` re-raises the first load
exception; the other load tasks are not cancelled and complete, scheduling
their periodic tasks (`loaded`).  An exception raised before the `yield`
propagates out of `__aenter__`, so the statement after the `yield` — the
gather of `system.unload()` calls — is not executed on that path:
`unloadCalls` records the unload calls made before control returns, which
is none in either case (on success the unload gather runs only at context
exit). -/
def async_setup_systems_enter (loads : List (Nat × Bool)) : SystemsEnterResult :=
  if loads.all (fun s => s.2) then
    { loaded := loads.map (fun s => s.1), unloadCalls := [], raised := false }
  else
    { loaded := (loads.filter (fun s => s.2)).map (fun s => s.1),
      unloadCalls := [], raised := true }

/-- `async_setup_systems` exit path (line 180, reached only when the
context was entered and exits normally): gathers `system.unload()` for
every system. -/
def async_setup_systems_exit (systems : List Nat) : List Nat :=
  systems

/-- An operation touching `NibeData.skip_reload`. -/
inductive ConfigOp where
  | updateListener
  | accessDataWrite (changed : Bool)
deriving DecidableEq, Repr

/-- `async_update_listener` (lines 217-224): reload when `skip_reload == 0`,
else decrement it. -/
def async_update_listener_step (skip : Int) : Int :=
  if skip = 0 then skip else skip - 1

/-- `access_data_write` (lines 239-245): increment `skip_reload`, update the
entry, and decrement the just-incremented counter again when the update
reports no change. -/
def access_data_write_step (skip : Int) (changed : Bool) : Int :=
  if changed then skip + 1 else skip + 1 - 1

/-- Dispatch one operation over the `skip_reload` counter. -/
def configStep (skip : Int) : ConfigOp → Int
  | ConfigOp.updateListener => async_update_listener_step skip
  | ConfigOp.accessDataWrite changed => access_data_write_step skip changed

/-- Run a sequence of operations over the `skip_reload` counter. -/
def runConfigOps (skip : Int) : List ConfigOp → Int
  | [] => skip
  | op :: rest => runConfigOps (configStep skip op) rest

/-! ## Helper lemmas -/

lemma contains_iff_mem (l : List NotificationRecord) (a : NotificationRecord) :
    l.contains a = true ↔ a ∈ l := by
  simp [List.contains]

lemma notifDiff_added_mem (oldN newN : List NotificationRecord)
    (r : NotificationRecord) :
    r ∈ (notifDiff oldN newN).1 ↔ r ∈ newN ∧ r ∉ oldN := by
  simp [notifDiff, List.mem_filter, contains_iff_mem]

lemma notifDiff_removed_mem (oldN newN : List NotificationRecord)
    (r : NotificationRecord) :
    r ∈ (notifDiff oldN newN).2 ↔ r ∈ oldN ∧ r ∉ newN := by
  simp [notifDiff, List.mem_filter, contains_iff_mem]

/-! ## Claims about the notification poll -/

/-- Record used in content-drift scenarios: id 1 with its original text. -/
def driftOld : NotificationRecord :=
  { notificationId := 1, title := "alarm", description := "old text" }

/-- Record used in content-drift scenarios: the same id 1 after the remote
end rewrote the description. -/
def driftNew : NotificationRecord :=
  { notificationId := 1, title := "alarm", description := "new text" }

/-- C1 counterexample: the notification diff of `update_notifications` uses
Python list membership on whole records (`k not in self.notice`), not
identifier-set membership.  With the old snapshot `[driftOld]` and the new
snapshot `[driftNew]` — the same identifier 1 in both, differing only in
the description — the record is reported both as added and as removed,
refuting the claim that an identifier present in both snapshots is never
reported. -/
theorem C1_counterexample :
    driftOld.notificationId = driftNew.notificationId ∧
    (notifDiff [driftOld] [driftNew]).1 = [driftNew] ∧
    (notifDiff [driftOld] [driftNew]).2 = [driftOld] :=
  ⟨rfl, rfl, rfl⟩

/-- C1 (amended): the notification poll classifies records by whole-record
equality: added = records of the new snapshot not structurally present in
the old one, removed = records of the old snapshot not structurally present
in the new one, each preserving the order of the sequence it was drawn
from; a record whose full content appears in both snapshots is never
reported. -/
theorem C1_diff_by_record_equality (oldN newN : List NotificationRecord) :
    (∀ r, r ∈ (notifDiff oldN newN).1 ↔ r ∈ newN ∧ r ∉ oldN) ∧
    (∀ r, r ∈ (notifDiff oldN newN).2 ↔ r ∈ oldN ∧ r ∉ newN) ∧
    List.Sublist (notifDiff oldN newN).1 newN ∧
    List.Sublist (notifDiff oldN newN).2 oldN := by
  refine ⟨notifDiff_added_mem oldN newN, notifDiff_removed_mem oldN newN, ?_, ?_⟩
  · exact List.filter_sublist newN
  · exact List.filter_sublist oldN

/-- C6: when the remote fetch of a notification poll fails, the exception
propagates from the first statement of `update_notifications`: the cached
snapshot is untouched and no notice creation or dismissal is requested. -/
theorem C6_failed_fetch_leaves_state (oldNotice : List NotificationRecord)
    (e : FetchError) :
    update_notifications oldNotice (Except.error e) = Except.error e ∧
    poll_notifications oldNotice (Except.error e) = (oldNotice, []) :=
  ⟨rfl, rfl⟩

/-- C9 counterexample: the persistent-notification key is derived from the
identifier alone, but "no action is taken for an identifier present in both
snapshots" fails: a record whose identifier 1 appears in both snapshots
with drifted content triggers both a creation and a dismissal, under the
same key. -/
theorem C9_counterexample :
    driftOld.notificationId = driftNew.notificationId ∧
    (poll_notifications [driftOld] (Except.ok [driftNew])).2 =
      [NoticeAction.create driftNew.description driftNew.title "nibe:1",
       NoticeAction.dismiss "nibe:1"] :=
  ⟨rfl, rfl⟩

/-- C9 (amended): a successful notification poll requests exactly one host
notice creation per added record and one dismissal per removed record —
added/removed classified by whole-record equality, not identifier-set
membership — each keyed by the deterministic key `"nibe:" + identifier`
(the same identifier always yields the same key); a record identically
present in both snapshots triggers no action. -/
theorem C9_actions_per_diff_record (oldN fetched : List NotificationRecord) :
    ((poll_notifications oldN (Except.ok fetched)).2 =
      (notifDiff oldN fetched).1.map
        (fun x => NoticeAction.create x.description x.title (notifKey x)) ++
      (notifDiff oldN fetched).2.map
        (fun x => NoticeAction.dismiss (notifKey x))) ∧
    (∀ r s : NotificationRecord, r.notificationId = s.notificationId →
      notifKey r = notifKey s) ∧
    (∀ r, r ∈ oldN → r ∈ fetched →
      r ∉ (notifDiff oldN fetched).1 ∧ r ∉ (notifDiff oldN fetched).2) := by
  refine ⟨rfl, ?_, ?_⟩
  · intro r s h
    simp [notifKey, h]
  · intro r hold hnew
    constructor
    · rw [notifDiff_added_mem]
      exact fun hc => hc.2 hold
    · rw [notifDiff_removed_mem]
      exact fun hc => hc.2 hnew

/-- Notification record with identifier 1 of the spec's end-to-end
example. -/
def noticeOne : NotificationRecord :=
  { notificationId := 1, title := "t1", description := "d1" }

/-- Notification record with identifier 2 of the spec's end-to-end
example. -/
def noticeTwo : NotificationRecord :=
  { notificationId := 2, title := "t2", description := "d2" }

/-- Notification record with identifier 3 of the spec's end-to-end
example. -/
def noticeThree : NotificationRecord :=
  { notificationId := 3, title := "t3", description := "d3" }

/-- Witness for the amended C9 at the spec's end-to-end example: old
snapshot with ids 1 and 2, new snapshot with ids 2 and 3 (each id carrying
its own content) yields exactly create(key 3) and dismiss(key 1), and no
action for the record with id 2 present in both. -/
theorem C9_actions_per_diff_record_witness :
    (poll_notifications [noticeOne, noticeTwo]
        (Except.ok [noticeTwo, noticeThree])).2 =
      [NoticeAction.create noticeThree.description noticeThree.title "nibe:3",
       NoticeAction.dismiss "nibe:1"] ∧
    noticeTwo ∉ (notifDiff [noticeOne, noticeTwo] [noticeTwo, noticeThree]).1 ∧
    noticeTwo ∉ (notifDiff [noticeOne, noticeTwo] [noticeTwo, noticeThree]).2 := by
  have h := C9_actions_per_diff_record [noticeOne, noticeTwo]
    [noticeTwo, noticeThree]
  have h2 := h.2.2 noticeTwo (by simp) (by simp)
  refine ⟨?_, h2.1, h2.2⟩
  rw [h.1]
  rfl

/-! ## Claims about the status poll -/

/-- C7: every status poll dispatches exactly two bus events — one on the
parameters-updated topic carrying (systemId, parameter mapping), one on the
statuses-updated topic carrying (systemId, status set) — regardless of the
cached state; a second poll of the same fetched data (from the state the
first poll left behind) publishes the same two payloads again, with no
suppression of no-op polls. -/
theorem C7_unconditional_publish (sysId : Nat) (cached : Finset String)
    (icons : List StatusIcon) :
    ((update_statuses sysId cached icons).2 =
      [BusEvent.parametersUpdated sysId (statusFold icons).1,
       BusEvent.statusesUpdated sysId (statusFold icons).2]) ∧
    (update_statuses sysId cached icons).2.length = 2 ∧
    ((update_statuses sysId (update_statuses sysId cached icons).1 icons).2 =
      (update_statuses sysId cached icons).2) :=
  ⟨rfl, rfl, rfl⟩

lemma dictGet_nil (k : Nat) : dictGet [] k = none := rfl

lemma dictGet_cons (e : Nat × Parameter) (rest : List (Nat × Parameter))
    (k : Nat) :
    dictGet (e :: rest) k = if e.1 = k then some e.2 else dictGet rest k := by
  by_cases h : e.1 = k
  · rw [if_pos h]
    unfold dictGet
    rw [List.find?_cons_of_pos _ (by simp [h])]
    rfl
  · rw [if_neg h]
    unfold dictGet
    rw [List.find?_cons_of_neg _ (by simp [h])]

lemma dictGet_append (d1 d2 : List (Nat × Parameter)) (k : Nat) :
    dictGet (d1 ++ d2) k = (dictGet d1 k).or (dictGet d2 k) := by
  unfold dictGet
  rw [List.find?_append]
  cases h : List.find? (fun p => p.1 == k) d1 <;> simp

lemma dictGet_map_replace (d : List (Nat × Parameter)) (k : Nat)
    (v : Parameter) (k' : Nat) (h : k' ≠ k) :
    dictGet (d.map (fun p => if p.1 == k then (k, v) else p)) k' =
      dictGet d k' := by
  induction d with
  | nil => rfl
  | cons e rest ih =>
    simp only [List.map_cons]
    by_cases he : e.1 = k
    · have hfe : (if (e.1 == k) = true then (k, v) else e) = (k, v) := by
        simp [he]
      rw [hfe, dictGet_cons, dictGet_cons, ih]
      rw [if_neg (show ¬(k, v).1 = k' by simpa using Ne.symm h),
        if_neg (show ¬e.1 = k' by rw [he]; exact Ne.symm h)]
    · have hfe : (if (e.1 == k) = true then (k, v) else e) = e := by
        simp [he]
      rw [hfe, dictGet_cons, dictGet_cons, ih]

lemma dictGet_map_replace_self (d : List (Nat × Parameter)) (k : Nat)
    (v : Parameter) (h : d.any (fun p => p.1 == k) = true) :
    dictGet (d.map (fun p => if p.1 == k then (k, v) else p)) k = some v := by
  induction d with
  | nil => simp at h
  | cons e rest ih =>
    simp only [List.map_cons]
    by_cases he : e.1 = k
    · have hfe : (if (e.1 == k) = true then (k, v) else e) = (k, v) := by
        simp [he]
      rw [hfe, dictGet_cons, if_pos rfl]
    · have hfe : (if (e.1 == k) = true then (k, v) else e) = e := by
        simp [he]
      rw [hfe, dictGet_cons, if_neg he]
      apply ih
      simpa [he] using h

lemma dictGet_insert (d : List (Nat × Parameter)) (k : Nat) (v : Parameter)
    (k' : Nat) :
    dictGet (dictInsert d k v) k' =
      if k' = k then some v else dictGet d k' := by
  unfold dictInsert
  by_cases hany : d.any (fun p => p.1 == k) = true
  · rw [if_pos hany]
    by_cases hk : k' = k
    · subst hk
      rw [if_pos rfl]
      exact dictGet_map_replace_self d k' v hany
    · rw [if_neg hk]
      exact dictGet_map_replace d k v k' hk
  · rw [if_neg hany, dictGet_append]
    have h2 : dictGet [(k, v)] k' = if k' = k then some v else none := by
      rw [dictGet_cons]
      by_cases hk : k = k'
      · rw [if_pos hk, if_pos hk.symm]
      · rw [if_neg hk, if_neg (Ne.symm hk), dictGet_nil]
    rw [h2]
    by_cases hk : k' = k
    · subst hk
      have hall : ∀ p ∈ d, ((p.1 == k') = false) := by
        intro p hp
        rcases Bool.eq_false_or_eq_true (p.1 == k') with ht | hf
        · exact absurd (List.any_eq_true.mpr ⟨p, hp, ht⟩) hany
        · exact hf
      have hnone : dictGet d k' = none := by
        unfold dictGet
        rw [List.find?_eq_none.mpr (fun x hx => by simpa using hall x hx)]
        rfl
      rw [hnone, if_pos rfl]
      rfl
    · rw [if_neg hk, if_neg hk]
      simp

lemma dictGet_foldl_insParam (l : List Parameter) :
    ∀ (d : List (Nat × Parameter)) (k : Nat),
      dictGet (l.foldl insParam d) k =
        (l.reverse.find? (fun p => p.parameterId == k)).or (dictGet d k) := by
  induction l using List.reverseRecOn with
  | nil => intro d k; rfl
  | append_singleton l p ih =>
    intro d k
    rw [List.foldl_append, List.foldl_cons, List.foldl_nil, List.reverse_append]
    simp only [List.reverse_cons, List.reverse_nil, List.nil_append,
      List.singleton_append]
    show dictGet (insParam (l.foldl insParam d) p) k = _
    rw [insParam, dictGet_insert]
    by_cases hk : k = p.parameterId
    · rw [if_pos hk]
      rw [List.find?_cons_of_pos _ (by simp [hk])]
      rfl
    · rw [if_neg hk]
      rw [List.find?_cons_of_neg _ (by simp [Ne.symm hk])]
      exact ih d k

lemma statusFold_split (icons : List StatusIcon) :
    ∀ (d : List (Nat × Parameter)) (s : Finset String),
      icons.foldl
        (fun acc icon =>
          (icon.parameters.foldl insParam acc.1, insert icon.title acc.2))
        (d, s) =
      ((icons.map StatusIcon.parameters).flatten.foldl insParam d,
       icons.foldl (fun s2 icon => insert icon.title s2) s) := by
  induction icons with
  | nil => intro d s; rfl
  | cons icon rest ih =>
    intro d s
    simp only [List.foldl_cons, List.map_cons, List.flatten_cons,
      List.foldl_append]
    exact ih _ _

lemma titles_foldl (icons : List StatusIcon) :
    ∀ s : Finset String,
      icons.foldl (fun s2 icon => insert icon.title s2) s =
        s ∪ (icons.map StatusIcon.title).toFinset := by
  induction icons with
  | nil => intro s; simp
  | cons icon rest ih =>
    intro s
    simp only [List.foldl_cons, List.map_cons, List.toFinset_cons]
    rw [ih]
    ext x
    simp

/-- C8: a status poll rebuilds the cached state from the fetched icon list
alone: the status set is exactly the set of the groups' titles, and the
parameter mapping is the flattening of all groups' parameter lists with
last-writer-wins on parameter identifier — the mapping's entry for `k` is
the last occurrence of `k` in the flattened group order (so a parameter id
carried by several groups takes the payload of the latest group), and every
entry of the mapping comes from the current fetch, none from a previous
poll. -/
theorem C8_status_rebuild_last_writer_wins (icons : List StatusIcon) :
    ((statusFold icons).2 = (icons.map StatusIcon.title).toFinset) ∧
    (∀ k, dictGet (statusFold icons).1 k =
      ((icons.map StatusIcon.parameters).flatten.reverse.find?
        (fun p => p.parameterId == k))) ∧
    (∀ k p, dictGet (statusFold icons).1 k = some p →
      p ∈ (icons.map StatusIcon.parameters).flatten ∧ p.parameterId = k) := by
  have hsplit := statusFold_split icons [] ∅
  refine ⟨?_, ?_, ?_⟩
  · rw [statusFold, hsplit]
    simp [titles_foldl icons ∅]
  · intro k
    rw [statusFold, hsplit]
    show dictGet ((icons.map StatusIcon.parameters).flatten.foldl insParam []) k = _
    rw [dictGet_foldl_insParam, dictGet_nil, Option.or_none]
  · intro k p hp
    rw [statusFold, hsplit] at hp
    rw [show (((icons.map StatusIcon.parameters).flatten.foldl insParam [],
        icons.foldl (fun s2 icon => insert icon.title s2) ∅)).1 =
        (icons.map StatusIcon.parameters).flatten.foldl insParam [] from rfl] at hp
    rw [dictGet_foldl_insParam, dictGet_nil, Option.or_none] at hp
    constructor
    · exact List.mem_reverse.mp (List.mem_of_find?_eq_some hp)
    · have := List.find?_some hp
      simpa using this

/-- Status icon groups for the witness: the parameter id 100 is carried by
both groups; the later group wins. -/
def iconHeating : StatusIcon :=
  { title := "heating",
    parameters := [{ parameterId := 100, payload := "a" },
                   { parameterId := 200, payload := "b" }] }

/-- Second status icon group of the witness, also carrying id 100. -/
def iconHotWater : StatusIcon :=
  { title := "hot water", parameters := [{ parameterId := 100, payload := "c" }] }

/-- Witness for C8: with two groups both carrying parameter id 100, the
mapping holds the payload of the later group, that entry comes from the
current fetch, and the status set is the two titles. -/
theorem C8_status_rebuild_last_writer_wins_witness :
    Parameter.mk 100 "c" ∈
      ([iconHeating, iconHotWater].map StatusIcon.parameters).flatten ∧
    (Parameter.mk 100 "c").parameterId = 100 ∧
    (statusFold [iconHeating, iconHotWater]).2 =
      ([iconHeating, iconHotWater].map StatusIcon.title).toFinset := by
  have h := C8_status_rebuild_last_writer_wins [iconHeating, iconHotWater]
  have h3 := h.2.2 100 (Parameter.mk 100 "c") (by rfl)
  exact ⟨h3.1, h3.2, h.1⟩

/-! ## Claims about the resource lifecycle -/

lemma acloseStack_ok {α : Type} (stack : List (ExitEntry α)) :
    ∀ exc : Bool, (acloseStack stack exc).2 = (!exc && stack.all ExitEntry.ok) := by
  induction stack with
  | nil => intro exc; cases exc <;> rfl
  | cons t rest ih =>
    intro exc
    by_cases h : t.kind = ExitKind.generator ∧ exc = true
    · simp only [acloseStack, if_pos h]
      rw [ih exc, h.2]
      simp
    · simp only [acloseStack, if_neg h]
      rw [ih (exc || !t.ok), List.all_cons]
      cases exc <;> cases hok : t.ok <;> simp

lemma acloseStack_plain_mem {α : Type} (stack : List (ExitEntry α)) :
    ∀ (exc : Bool) (e : ExitEntry α), e ∈ stack → e.kind = ExitKind.plain →
      e.res ∈ (acloseStack stack exc).1 := by
  induction stack with
  | nil => intro exc e he _; simp at he
  | cons t rest ih =>
    intro exc e he hp
    rcases List.mem_cons.mp he with rfl | hm
    · have hno : ¬(e.kind = ExitKind.generator ∧ exc = true) := by
        intro hc
        rw [hp] at hc
        exact absurd hc.1 (by simp)
      simp only [acloseStack, if_neg hno]
      exact List.mem_cons_self _ _
    · by_cases h : t.kind = ExitKind.generator ∧ exc = true
      · simp only [acloseStack, if_pos h]
        exact ih exc e hm hp
      · simp only [acloseStack, if_neg h]
        exact List.mem_cons_of_mem _ (ih (exc || !t.ok) e hm hp)

lemma acloseStack_all_ok_trace {α : Type} (stack : List (ExitEntry α)) :
    stack.all ExitEntry.ok = true →
      (acloseStack stack false).1 = stack.map ExitEntry.res := by
  induction stack with
  | nil => intro _; rfl
  | cons t rest ih =>
    intro h
    rw [List.all_cons, Bool.and_eq_true] at h
    have hno : ¬(t.kind = ExitKind.generator ∧ (false : Bool) = true) := by
      simp
    simp only [acloseStack, if_neg hno, List.map_cons]
    rw [h.1]
    simp only [Bool.not_true, Bool.or_false]
    rw [ih h.2]

/-- C2 (code behaviour at the claim's own scenario): with three configured
systems where system 2's `load()` raises, entering `async_setup_systems`
surfaces the error, systems 1 and 3 finish loading (their periodic tasks
are scheduled), and neither receives any `unload()` call — the unload
gather sits after the `yield`, unreachable when the load gather raises
before it. -/
theorem C2_partial_load_skips_unload :
    (async_setup_systems_enter [(1, true), (2, false), (3, true)]).raised = true ∧
    (async_setup_systems_enter [(1, true), (2, false), (3, true)]).loaded = [1, 3] ∧
    (async_setup_systems_enter [(1, true), (2, false), (3, true)]).unloadCalls.count 1 = 0 ∧
    (async_setup_systems_enter [(1, true), (2, false), (3, true)]).unloadCalls.count 3 = 0 := by
  refine ⟨rfl, rfl, rfl, rfl⟩

/-- C3 counterexample: a chain whose platform-unload teardown fails (the
deliberate `raise` in `async_forward_platforms` when a platform unload
returns false).  The error is re-raised by `aclose`, so `async_unload_entry`
does not report success — and the systems context, reached with that
exception in flight, has its post-yield unload gather skipped
(`gen.athrow`), so not even every remaining resource receives a release
attempt.  Both halves refute the claim. -/
def failChain : List (ExitEntry String) :=
  [{ res := "platforms", kind := ExitKind.generator, ok := false },
   { res := "systems", kind := ExitKind.generator, ok := true },
   { res := "uplink", kind := ExitKind.plain, ok := true },
   { res := "session", kind := ExitKind.plain, ok := true },
   { res := "updateListener", kind := ExitKind.plain, ok := true }]

/-- C3 counterexample theorem: on `failChain` the platforms teardown runs
and raises, the systems teardown is skipped, the plain resources are still
torn down, and the unload reports failure instead of success. -/
theorem C3_counterexample :
    (async_unload_entry failChain).1 =
      ["platforms", "uplink", "session", "updateListener"] ∧
    "systems" ∉ (async_unload_entry failChain).1 ∧
    (async_unload_entry failChain).2.2 = false := by
  refine ⟨rfl, by decide, rfl⟩

/-- C3 (amended): an error raised while releasing a resource does not stop
the unwind, but it is not swallowed either: `async_unload_entry` reports
success exactly when no individual teardown raised (otherwise the stack
close re-raises and the caller sees the failure, nothing is logged); every
remaining `plain` resource — client close, session close, listener removal
— still receives its release attempt, while an `@asynccontextmanager`
resource reached with the exception in flight has its post-yield cleanup
skipped; when every teardown succeeds the full chain is released in stack
(reverse-acquisition) order. -/
theorem C3_release_continues_but_propagates (stack : List (ExitEntry String)) :
    ((async_unload_entry stack).2.2 = true ↔ stack.all ExitEntry.ok = true) ∧
    (∀ e ∈ stack, e.kind = ExitKind.plain →
      e.res ∈ (async_unload_entry stack).1) ∧
    (stack.all ExitEntry.ok = true →
      (async_unload_entry stack).1 = stack.map ExitEntry.res) := by
  refine ⟨?_, ?_, ?_⟩
  · show (acloseStack stack false).2 = true ↔ _
    rw [acloseStack_ok stack false]
    simp
  · intro e he hp
    exact acloseStack_plain_mem stack false e he hp
  · exact acloseStack_all_ok_trace stack

/-- A fully successful chain: the kinds of the five resources of
`async_setup_entry`, every teardown succeeding. -/
def okChain : List (ExitEntry String) :=
  [{ res := "platforms", kind := ExitKind.generator, ok := true },
   { res := "systems", kind := ExitKind.generator, ok := true },
   { res := "uplink", kind := ExitKind.plain, ok := true },
   { res := "session", kind := ExitKind.plain, ok := true },
   { res := "updateListener", kind := ExitKind.plain, ok := true }]

/-- Witness for the amended C3: on `failChain` the plain uplink resource is
still released, and on a chain whose teardowns all succeed the whole chain
is released in stack order. -/
theorem C3_release_continues_but_propagates_witness :
    "uplink" ∈ (async_unload_entry failChain).1 ∧
    (async_unload_entry okChain).1 = okChain.map ExitEntry.res := by
  have h1 := C3_release_continues_but_propagates failChain
  have h2 := C3_release_continues_but_propagates okChain
  exact ⟨h1.2.1 { res := "uplink", kind := ExitKind.plain, ok := true }
    (by decide) rfl, h2.2.2 rfl⟩

/-- The stack handed off by a fully successful `async_setup_entry`:
all five exits, head = last acquired. -/
def fullStack : List (ExitEntry Resource) :=
  [{ res := Resource.platforms, kind := ExitKind.generator, ok := true },
   { res := Resource.systems, kind := ExitKind.generator, ok := true },
   { res := Resource.uplink, kind := ExitKind.plain, ok := true },
   { res := Resource.session, kind := ExitKind.plain, ok := true },
   { res := Resource.updateListener, kind := ExitKind.plain, ok := true }]

/-- C4 (code behaviour at the failing input): when the first four steps
succeed and the platforms step raises (k = 4), the `async with data.stack`
unwind runs with the exception in flight, so the systems context's
post-yield unload gather is skipped (`gen.athrow` raises at its yield):
only the client, the session and the listener registration are released —
the controller set is acquired but never released, violating "exactly Rk
down to R1 are released".  At k = 3 (only plain resources acquired) and on
normal unload of the full chain the reverse-order release does hold, and
the two periodic tasks are cancelled in reverse start order. -/
theorem C4_platforms_failure_skips_systems_release :
    (runSetup (setupOutcome 4) [] =
      Except.error (Resource.platforms,
        [Resource.uplink, Resource.session, Resource.updateListener])) ∧
    Resource.systems ∉
      [Resource.uplink, Resource.session, Resource.updateListener] ∧
    (runSetup (setupOutcome 3) [] =
      Except.error (Resource.systems,
        [Resource.uplink, Resource.session, Resource.updateListener])) ∧
    runSetup (setupOutcome acquisitionOrder.length) [] =
      Except.ok fullStack ∧
    (acloseStack fullStack false).1 = acquisitionOrder.reverse ∧
    system_unload load_unsub =
      ([PeriodicTask.statusesTask, PeriodicTask.notificationsTask], []) := by
  refine ⟨rfl, by decide, rfl, rfl, rfl, rfl⟩

/-- C5 counterexample: on a chain whose platform teardown fails, the first
`async_unload_entry` call does not report success (the teardown error is
re-raised), refuting "both calls report success" — though the second call
is still a teardown-free no-op reporting success. -/
theorem C5_counterexample :
    (unloadTwice failChain).1.2 = false ∧
    (unloadTwice failChain).2.1 = [] ∧
    (unloadTwice failChain).2.2 = true :=
  ⟨rfl, rfl, rfl⟩

/-- C5 (amended): no resource is ever torn down twice across the two calls:
the first `aclose` empties the stack, so the second call performs no
teardown at all and reports success; when every individual teardown
succeeds, the first call tears down each resource exactly once (in stack
order) and reports success too — when one raises, the first call propagates
that error instead of reporting success. -/
theorem C5_second_release_is_noop (stack : List (ExitEntry String)) :
    (unloadTwice stack).2.1 = [] ∧
    (unloadTwice stack).2.2 = true ∧
    (stack.all ExitEntry.ok = true →
      (unloadTwice stack).1.1 = stack.map ExitEntry.res ∧
      (unloadTwice stack).1.2 = true) := by
  refine ⟨rfl, rfl, ?_⟩
  intro h
  constructor
  · show (acloseStack stack false).1 = _
    exact acloseStack_all_ok_trace stack h
  · show (acloseStack stack false).2 = true
    rw [acloseStack_ok stack false]
    simp [h]

/-- Witness for the amended C5 on a chain whose teardowns all succeed: the
first call releases everything once and reports success, the second call
performs no teardown and reports success. -/
theorem C5_second_release_is_noop_witness :
    (unloadTwice okChain).1.1 = okChain.map ExitEntry.res ∧
    (unloadTwice okChain).1.2 = true ∧
    (unloadTwice okChain).2.1 = [] ∧
    (unloadTwice okChain).2.2 = true := by
  have h := C5_second_release_is_noop okChain
  have h3 := h.2.2 rfl
  exact ⟨h3.1, h3.2, h.1, h.2.1⟩

/-! ## Claim about the skip_reload counter -/

lemma configStep_nonneg (skip : Int) (h : 0 ≤ skip) (op : ConfigOp) :
    0 ≤ configStep skip op := by
  cases op with
  | updateListener =>
    simp only [configStep, async_update_listener_step]
    split <;> omega
  | accessDataWrite changed =>
    simp only [configStep, access_data_write_step]
    split <;> omega

lemma runConfigOps_nonneg (ops : List ConfigOp) :
    ∀ skip : Int, 0 ≤ skip → 0 ≤ runConfigOps skip ops := by
  induction ops with
  | nil => intro skip h; exact h
  | cons op rest ih =>
    intro skip h
    exact ih _ (configStep_nonneg skip h op)

/-- C10: starting from its initial value 0, any interleaving of
update-listener callbacks (which decrement `skip_reload` only when it is
nonzero, reloading otherwise) and access-data write-backs (which decrement
only after their own increment, and only when the entry update reports no
change) keeps `skip_reload` non-negative. -/
theorem C10_skip_reload_never_negative (ops : List ConfigOp) :
    0 ≤ runConfigOps 0 ops :=
  runConfigOps_nonneg ops 0 le_rfl

end Nibe
